import Mathlib

/-!
Verification development for the go-mcp runtime: a shallow embedding of the
JSON-RPC envelope layer, the server/client dispatchers, the session manager
and the streamable-HTTP delete handler, with theorems about frame
classification, readiness gating, pending-call slots, session lifecycle,
outbox drain semantics, heartbeat reaping, error-code mapping, content
decoding and client re-initialization.

Conventions of the embedding:
* raw byte strings (message payloads, session ids) are Lean `String`s;
* Go maps (`pkg.SyncMap`, `cmap.ConcurrentMap`) are functions
  `String → Option _`; a buffered capacity-1 channel is an `Option` slot;
* `time.Time`/`time.Duration` are `Int` (nanosecond counts);
* a blocking select is modelled with an explicit `ctxDone : Bool` parameter
  and a `wouldBlock` outcome for the suspension case;
* fallible Go functions return an `Option GoError` or a sum.
-/

namespace GoMcp

/-- The sentinel error values of package pkg (pkg/errors.go) together with the
ad-hoc errors constructed with errors.New in the code paths modelled here. -/
inductive GoError
  | clientNotSupport
  | serverNotSupport
  | requestInvalid
  | lackResponseChan
  | duplicateResponseReceived
  | methodNotSupport
  | jsonUnmarshal
  | sessionHasNotInitialized
  | lackSession
  | sessionClosed
  | sendEOF
  | queueNotOpened
  | sessionAlreadyClosed
  | serverAlreadyShutdown
  | ctxErr
  | clientNotReady
  deriving DecidableEq, Repr

namespace protocol

/-- Standard JSON-RPC error codes (protocol/jsonrpc.go). -/
def ParseError : Int := -32700

def InvalidRequest : Int := -32600

def MethodNotFound : Int := -32601

def InvalidParams : Int := -32602

def InternalError : Int := -32603

/-- Modelled from the spec: method-name constants of package protocol; the
constant declarations are not among the extracted sources, the string values
come from the protocol-surface table of the spec. -/
def Initialize : String := "initialize"

def Ping : String := "ping"

def NotificationInitialized : String := "notifications/initialized"

/-- A JSON-RPC request identifier: a string or an integer scalar; `null`
models an absent/nil interface value. -/
inductive RequestID
  | null
  | str (s : String)
  | num (n : Int)
  deriving DecidableEq, Repr

/-- fmt.Sprint of a request id, used as the key of the pending-call map. -/
def RequestID.sprint : RequestID → String
  | .null => "<nil>"
  | .str s => s
  | .num n => toString n

/-- protocol.JSONRPCRequest: envelope of a request frame. The raw parameter
bytes are retained alongside (RawParams). -/
structure JSONRPCRequest where
  jsonrpc : String
  id : RequestID
  method : String
  rawParams : String
  deriving DecidableEq, Repr

/-- JSONRPCRequest.IsValid: version tag matches, method non-empty, id
non-nil. -/
def JSONRPCRequest.IsValid (r : JSONRPCRequest) : Bool :=
  r.jsonrpc == "2.0" && r.method != "" && r.id != RequestID.null

/-- The error member of a JSON-RPC response. -/
structure ResponseErr where
  code : Int
  message : String
  deriving DecidableEq, Repr

/-- protocol.JSONRPCResponse: result and error are each optional; the raw
result bytes stand in for both Result and RawResult. -/
structure JSONRPCResponse where
  jsonrpc : String
  id : RequestID
  result : Option String
  error : Option ResponseErr
  deriving DecidableEq, Repr

/-- protocol.JSONRPCNotification. -/
structure JSONRPCNotification where
  jsonrpc : String
  method : String
  rawParams : String
  deriving DecidableEq, Repr

/-- protocol.NewJSONRPCSuccessResponse. -/
def NewJSONRPCSuccessResponse (id : RequestID) (result : String) : JSONRPCResponse :=
  ⟨"2.0", id, some result, none⟩

/-- protocol.NewJSONRPCErrorResponse. -/
def NewJSONRPCErrorResponse (id : RequestID) (code : Int) (message : String) : JSONRPCResponse :=
  ⟨"2.0", id, none, some ⟨code, message⟩⟩

end protocol

namespace session

open protocol

/-- session.State (server/session/state.go): per-session fields. The send
channel is modelled by an `queueOpened` flag (sendChan non-nil), its buffered
contents `sendQueue`, and a `sendChanClosed` flag; the pending-call map is a
function from stringified request id to the contents of a capacity-1
channel. -/
structure State where
  lastActiveAt : Int
  queueOpened : Bool
  sendQueue : List String
  sendChanClosed : Bool
  requestID : Int
  reqID2respChan : String → Option (Option JSONRPCResponse)
  subscribedResources : String → Bool
  receivedInitRequest : Bool
  ready : Bool
  closed : Bool

/-- session.NewState, with the current time passed explicitly. -/
def NewState (now : Int) : State :=
  ⟨now, false, [], false, 0, fun _ => none, fun _ => false, false, false, false⟩

/-- State.SetReady. -/
def State.SetReady (s : State) : State :=
  { s with ready := true }

/-- State.SetReceivedInitRequest. -/
def State.SetReceivedInitRequest (s : State) : State :=
  { s with receivedInitRequest := true }

/-- State.updateLastActiveAt, with the current time passed explicitly. -/
def State.updateLastActiveAt (s : State) (now : Int) : State :=
  { s with lastActiveAt := now }

/-- State.openMessageQueueForSend: lazily create the send channel (buffer
64). -/
def State.openMessageQueueForSend (s : State) : State :=
  if s.queueOpened then s else { s with queueOpened := true }

/-- State.Close: set the closed flag and, when the send channel exists, close
it. -/
def State.Close (s : State) : State :=
  { s with closed := true, sendChanClosed := s.sendChanClosed || s.queueOpened }

/-- Outcome of an enqueue: success, an error, or suspension on a full
channel while the context is still pending. -/
inductive EnqResult
  | ok
  | err (e : GoError)
  | wouldBlock
  deriving DecidableEq, Repr

/-- State.enqueueMessage: fails on a closed session, then on an unopened
queue; otherwise the buffered send either succeeds (buffer below 64), or the
select resolves against the context / suspends. -/
def State.enqueueMessage (s : State) (ctxDone : Bool) (message : String) :
    EnqResult × State :=
  if s.closed then (.err .sessionAlreadyClosed, s)
  else if !s.queueOpened then (.err .queueNotOpened, s)
  else if s.sendQueue.length < 64 then (.ok, { s with sendQueue := s.sendQueue ++ [message] })
  else if ctxDone then (.err .ctxErr, s)
  else (.wouldBlock, s)

/-- Outcome of a dequeue. -/
inductive DeqResult
  | msg (m : String)
  | err (e : GoError)
  | wouldBlock
  deriving DecidableEq, Repr

/-- State.dequeueMessage: error on an unopened queue; otherwise the select
delivers the next buffered message in FIFO order, signals `ErrSendEOF` once a
closed channel is drained, and suspends on an empty open channel. The model
resolves the select in favour of the context branch when the context has
completed. -/
def State.dequeueMessage (s : State) (ctxDone : Bool) : DeqResult × State :=
  if !s.queueOpened then (.err .queueNotOpened, s)
  else if ctxDone then (.err .ctxErr, s)
  else
    match s.sendQueue with
    | m :: rest => (.msg m, { s with sendQueue := rest })
    | [] => if s.sendChanClosed then (.err .sendEOF, s) else (.wouldBlock, s)

/-- Repeated dequeue with fuel: collects delivered messages until an error or
a suspension; returns the messages in delivery order and the terminating
error, if any. -/
def State.drainLoop (s : State) : Nat → List String × Option GoError
  | 0 => ([], none)
  | n + 1 =>
    match s.dequeueMessage false with
    | (.msg m, s2) =>
      let r := s2.drainLoop n
      (m :: r.1, r.2)
    | (.err e, _) => ([], some e)
    | (.wouldBlock, _) => ([], none)

/-- session.Manager (server/session/manager.go): the active and closed
session maps and the idle horizon. -/
structure Manager where
  activeSessions : String → Option State
  closedSessions : String → Bool
  maxIdleTime : Int

/-- Manager.IsActiveSession. -/
def Manager.IsActiveSession (m : Manager) (sessionID : String) : Bool :=
  (m.activeSessions sessionID).isSome

/-- Manager.IsClosedSession. -/
def Manager.IsClosedSession (m : Manager) (sessionID : String) : Bool :=
  m.closedSessions sessionID

/-- Manager.GetSession: an empty id is rejected up front. -/
def Manager.GetSession (m : Manager) (sessionID : String) : Option State :=
  if sessionID == "" then none
  else m.activeSessions sessionID

/-- Manager.CreateSession: the source draws a fresh UUID; the model takes the
drawn id and the current time as parameters, freshness of the id is a
hypothesis where it matters. -/
def Manager.CreateSession (m : Manager) (sessionID : String) (now : Int) : Manager :=
  { m with activeSessions := fun id =>
      if id = sessionID then some (NewState now) else m.activeSessions id }

/-- Manager.CloseSession: LoadAndDelete from the active map; when the session
was present, close its state and record the id in the closed map. -/
def Manager.CloseSession (m : Manager) (sessionID : String) : Manager :=
  match m.activeSessions sessionID with
  | none => m
  | some _ =>
    { m with
      activeSessions := fun id => if id = sessionID then none else m.activeSessions id,
      closedSessions := fun id => if id = sessionID then true else m.closedSessions id }

/-- Manager.CloseAllSessions: CloseSession over every active session. -/
def Manager.CloseAllSessions (m : Manager) : Manager :=
  { m with
    activeSessions := fun _ => none,
    closedSessions := fun id => m.closedSessions id || (m.activeSessions id).isSome }

/-- Manager.UpdateSessionLastActiveAt. -/
def Manager.UpdateSessionLastActiveAt (m : Manager) (sessionID : String) (now : Int) : Manager :=
  match m.activeSessions sessionID with
  | none => m
  | some st =>
    { m with activeSessions := fun id =>
        if id = sessionID then some (st.updateLastActiveAt now) else m.activeSessions id }

/-- The in-place mutations of a single session state reachable through
Manager.GetSession (handlers mutate the state through its pointer; none of
them stores into the active map). -/
inductive InnerOp
  | updLastActive (now : Int)
  | setReady
  | setReceivedInit
  | openQueue
  | enq (ctxDone : Bool) (msg : String)
  | deq (ctxDone : Bool)
  deriving Repr

/-- Effect of an in-place session mutation. -/
def InnerOp.apply : InnerOp → State → State
  | .updLastActive now, s => s.updateLastActiveAt now
  | .setReady, s => s.SetReady
  | .setReceivedInit, s => s.SetReceivedInitRequest
  | .openQueue, s => s.openMessageQueueForSend
  | .enq c msg, s => (s.enqueueMessage c msg).2
  | .deq c, s => (s.dequeueMessage c).2

/-- The session-manager operations that can run after a close: session
creation, closes, and the per-session mutations. -/
inductive MgrOp
  | create (sessionID : String) (now : Int)
  | close (sessionID : String)
  | closeAll
  | inner (sessionID : String) (op : InnerOp)
  deriving Repr

/-- One manager step. An `inner` op mutates the state only when the session
is in the active map, mirroring the GetSession guard. -/
def Manager.applyOp (m : Manager) : MgrOp → Manager
  | .create sid now => m.CreateSession sid now
  | .close sid => m.CloseSession sid
  | .closeAll => m.CloseAllSessions
  | .inner sid op =>
    match m.activeSessions sid with
    | none => m
    | some st =>
      { m with activeSessions := fun id =>
          if id = sid then some (op.apply st) else m.activeSessions id }

/-- A sequence of manager steps. -/
def Manager.applyOps (m : Manager) : List MgrOp → Manager
  | [] => m
  | op :: ops => (m.applyOp op).applyOps ops

/-- Well-formedness of one step: creation only ever happens with a freshly
drawn UUID, so the created id is neither active nor closed. -/
def Manager.wfOp (m : Manager) : MgrOp → Bool
  | .create sid _ => !(m.IsActiveSession sid) && !(m.IsClosedSession sid)
  | _ => true

/-- Well-formedness of a step sequence. -/
def Manager.wfOps (m : Manager) : List MgrOp → Bool
  | [] => true
  | op :: ops => m.wfOp op && (m.applyOp op).wfOps ops

end session

open protocol session

/-- The three-way classification of an inbound frame. -/
inductive FrameClass
  | notification
  | response
  | request
  deriving DecidableEq, Repr

/-- An inbound raw frame as the dispatchers see it: presence of the `id` and
`method` fields (the gjson Exists probes) and the outcome of JSONUnmarshal
into each envelope shape (`none` models an unmarshal error). -/
structure Frame where
  hasId : Bool
  hasMethod : Bool
  asNotify : Option JSONRPCNotification
  asResponse : Option JSONRPCResponse
  asRequest : Option JSONRPCRequest

/-- Outcome of a dispatcher receive call: rejection before classification
(server-side session pre-check), rejection of a classified frame, or the
handled cases of each class. `requestAccepted` stands for the spawn of the
handler goroutine. -/
inductive RecvOutcome
  | preRejected (e : GoError)
  | rejected (c : FrameClass) (e : GoError)
  | notifyHandled (method : String)
  | responseDelivered
  | requestAccepted (method : String)
  deriving DecidableEq, Repr

/-- The classification a receive outcome belongs to; `none` for the
pre-classification session rejection. -/
def RecvOutcome.classOf : RecvOutcome → Option FrameClass
  | .preRejected _ => none
  | .rejected c _ => some c
  | .notifyHandled _ => some .notification
  | .responseDelivered => some .response
  | .requestAccepted _ => some .request

/-- The server dispatch state: the session manager and the shutdown flag. -/
structure Server where
  sessionManager : Manager
  inShutdown : Bool

/-- Server.receiveNotify (server/receive.go): with a non-empty session id the
session must exist and, unless the notification is
`notifications/initialized`, be ready; then only the initialized notification
has a handler. The initialized handler itself is abstracted to success. -/
def Server.receiveNotify (server : Server) (sessionID : String)
    (notify : JSONRPCNotification) : Option GoError :=
  if sessionID != "" then
    match server.sessionManager.GetSession sessionID with
    | none => some .lackSession
    | some s =>
      if notify.method != protocol.NotificationInitialized && !s.ready then
        some .sessionHasNotInitialized
      else if notify.method == protocol.NotificationInitialized then none
      else some .methodNotSupport
  else if notify.method == protocol.NotificationInitialized then none
  else some .methodNotSupport

/-- Replace a session state in the active map. -/
def Server.storeSession (server : Server) (sessionID : String) (s : State) : Server :=
  { server with sessionManager :=
      { server.sessionManager with activeSessions := fun id =>
          if id = sessionID then some s else server.sessionManager.activeSessions id } }

/-- Server.receiveResponse (server/receive.go): look up the session, then the
pending-call channel under the stringified response id; a non-blocking send
into the capacity-1 channel succeeds when the slot is empty and reports
`DuplicateResponseReceived` when it is full. -/
def Server.receiveResponse (server : Server) (sessionID : String)
    (response : JSONRPCResponse) : Option GoError × Server :=
  match server.sessionManager.GetSession sessionID with
  | none => (some .lackSession, server)
  | some s =>
    match s.reqID2respChan response.id.sprint with
    | none => (some .lackResponseChan, server)
    | some none =>
      (none, server.storeSession sessionID
        { s with reqID2respChan := fun k =>
            if k = response.id.sprint then some (some response) else s.reqID2respChan k })
    | some (some _) => (some .duplicateResponseReceived, server)

/-- Server.receive (server/receive.go): session pre-check, then the three-way
classification — no `id` field means notification, `id` without `method`
means response, both fields mean request; a request is envelope-validated,
readiness-gated (except `initialize` and `ping`), shutdown-gated, and then
its handler goroutine is spawned. -/
def Server.receive (server : Server) (sessionID : String) (f : Frame) :
    RecvOutcome × Server :=
  if sessionID != "" && !(server.sessionManager.IsActiveSession sessionID) then
    if server.sessionManager.IsClosedSession sessionID then (.preRejected .sessionClosed, server)
    else (.preRejected .lackSession, server)
  else if !f.hasId then
    match f.asNotify with
    | none => (.rejected .notification .jsonUnmarshal, server)
    | some notify =>
      match server.receiveNotify sessionID notify with
      | some e => (.rejected .notification e, server)
      | none => (.notifyHandled notify.method, server)
  else if !f.hasMethod then
    match f.asResponse with
    | none => (.rejected .response .jsonUnmarshal, server)
    | some resp =>
      match server.receiveResponse sessionID resp with
      | (some e, server2) => (.rejected .response e, server2)
      | (none, server2) => (.responseDelivered, server2)
  else
    match f.asRequest with
    | none => (.rejected .request .jsonUnmarshal, server)
    | some req =>
      if !req.IsValid then (.rejected .request .requestInvalid, server)
      else if sessionID != "" && req.method != protocol.Initialize
          && req.method != protocol.Ping then
        match server.sessionManager.GetSession sessionID with
        | none => (.rejected .request .lackSession, server)
        | some s =>
          if !s.ready then (.rejected .request .sessionHasNotInitialized, server)
          else if server.inShutdown then (.rejected .request .serverAlreadyShutdown, server)
          else (.requestAccepted req.method, server)
      else if server.inShutdown then (.rejected .request .serverAlreadyShutdown, server)
      else (.requestAccepted req.method, server)

/-- The client dispatch state: the pending-call map, the ready flag and the
request-id counter. -/
structure Client where
  reqID2respChan : String → Option (Option JSONRPCResponse)
  ready : Bool
  requestID : Int

/-- Client.receive (client/receive.go): the same three-way classification;
notification, response and request handling run on spawned goroutines, so
the call itself only reports unmarshal and envelope-validation errors. -/
def Client.receive (_client : Client) (f : Frame) : RecvOutcome :=
  if !f.hasId then
    match f.asNotify with
    | none => .rejected .notification .jsonUnmarshal
    | some notify => .notifyHandled notify.method
  else if !f.hasMethod then
    match f.asResponse with
    | none => .rejected .response .jsonUnmarshal
    | some _ => .responseDelivered
  else
    match f.asRequest with
    | none => .rejected .request .jsonUnmarshal
    | some req =>
      if !req.IsValid then .rejected .request .requestInvalid
      else .requestAccepted req.method

/-- Client.receiveResponse (client/receive.go): the pending-call slot logic
of the server side, without the session indirection. -/
def Client.receiveResponse (client : Client) (response : JSONRPCResponse) :
    Option GoError × Client :=
  match client.reqID2respChan response.id.sprint with
  | none => (some .lackResponseChan, client)
  | some none =>
    (none, { client with reqID2respChan := fun k =>
        if k = response.id.sprint then some (some response) else client.reqID2respChan k })
  | some (some _) => (some .duplicateResponseReceived, client)

/-- The base kind of a handler error, as tested by the errors.Is chain in
Server.receiveRequest: the three sentinel errors, or anything else. -/
inductive HandlerErrKind
  | methodNotSupport
  | requestInvalid
  | jsonUnmarshal
  | other
  deriving DecidableEq, Repr

/-- The errors.Is switch of Server.receiveRequest, mapping a handler error to
its JSON-RPC code. -/
def handlerErrCode : HandlerErrKind → Int
  | .methodNotSupport => protocol.MethodNotFound
  | .requestInvalid => protocol.InvalidRequest
  | .jsonUnmarshal => protocol.ParseError
  | .other => protocol.InternalError

/-- Server.receiveRequest (server/receive.go): the method switch is
abstracted to a dispatch table from method name to the handler outcome
(marshalled result bytes or an error kind); a method with no table entry
falls to the default branch, `ErrMethodNotSupport`. The produced frame is
the success envelope on `(result, nil)` and the mapped error envelope
otherwise, both carrying the request id. -/
def Server.receiveRequest (handlers : String → Option (Except HandlerErrKind String))
    (request : JSONRPCRequest) : JSONRPCResponse :=
  match handlers request.method with
  | some (.ok result) => protocol.NewJSONRPCSuccessResponse request.id result
  | some (.error e) => protocol.NewJSONRPCErrorResponse request.id (handlerErrCode e) "handler error"
  | none => protocol.NewJSONRPCErrorResponse request.id (handlerErrCode .methodNotSupport) "method not support"

/-- One visit of the heartbeat sweep
(Manager.StartHeartbeatAndCleanInvalidSessions, server/session/manager.go):
the session is closed when the idle test `maxIdleTime != 0 && idle >
maxIdleTime` fires, and otherwise when none of the three detection attempts
succeeds; `d0 d1 d2` are the success flags of the attempts in order. Returns
true when the visit closes the session. -/
def heartbeatVisitCloses (maxIdleTime idle : Int) (d0 d1 d2 : Bool) : Bool :=
  if maxIdleTime ≠ 0 ∧ idle > maxIdleTime then true
  else if d0 then false
  else if d1 then false
  else if d2 then false
  else true

/-- The close condition exactly as the claim states it: maxIdleTime positive
and exceeded, or three consecutive detection failures. Stated from the
claim, for comparison with the code model. -/
def heartbeatClaimCloses (maxIdleTime idle : Int) (d0 d1 d2 : Bool) : Bool :=
  if (maxIdleTime > 0 ∧ idle > maxIdleTime) ∨ (d0 = false ∧ d1 = false ∧ d2 = false) then true
  else false

/-- streamableHTTPServerTransport.handleDelete
(transport/streamable_http_server.go): 400 when the Mcp-Session-Id header is
missing, otherwise CloseSession (a no-op for an unknown id) and 200. Returns
the HTTP status and the resulting manager. -/
def handleDelete (m : Manager) (sessionID : String) : Nat × Manager :=
  if sessionID == "" then (400, m)
  else (200, m.CloseSession sessionID)

namespace protocol

/-- The JSON of one element of a content array, abstracted by which of the
four tagged variants it carries (or none of them). -/
inductive RawContent
  | text (payload : String)
  | image (payload : String)
  | audio (payload : String)
  | embeddedResource (payload : String)
  | unknown (payload : String)
  deriving DecidableEq, Repr

/-- A decoded content value. -/
inductive Content
  | text (payload : String)
  | image (payload : String)
  | audio (payload : String)
  | embeddedResource (payload : String)
  deriving DecidableEq, Repr

/-- Modelled from the spec: the content-type taxonomy (TextContent and
friends) is an external collaborator whose declarations are not among the
extracted sources; per the spec, each variant decoder matches exactly the
content carrying its own type discriminator. Decoder for the text
variant. -/
def tryUnmarshalTextContent : RawContent → Option Content
  | .text p => some (.text p)
  | _ => none

/-- Modelled from the spec: decoder for the image variant. -/
def tryUnmarshalImageContent : RawContent → Option Content
  | .image p => some (.image p)
  | _ => none

/-- Modelled from the spec: decoder for the audio variant. -/
def tryUnmarshalAudioContent : RawContent → Option Content
  | .audio p => some (.audio p)
  | _ => none

/-- Modelled from the spec: decoder for the embedded-resource variant. -/
def tryUnmarshalEmbeddedResource : RawContent → Option Content
  | .embeddedResource p => some (.embeddedResource p)
  | _ => none

namespace CallToolResult

/-- The content-array loop of CallToolResult.UnmarshalJSON (the tool-result
decoder): each element is tried as text, then image, then audio, then
embedded resource; the first three successes assign the slot and continue to
the next element, but the embedded-resource branch returns nil for the whole
decode at once, leaving every later slot at its nil zero value (the
pre-allocated `make` entries, modelled as `none`); an element matching no
variant fails the whole decode. -/
def unmarshalContent : List RawContent → Except String (List (Option Content))
  | [] => .ok []
  | c :: rest =>
    match tryUnmarshalTextContent c with
    | some v => (unmarshalContent rest).map (fun r => some v :: r)
    | none =>
      match tryUnmarshalImageContent c with
      | some v => (unmarshalContent rest).map (fun r => some v :: r)
      | none =>
        match tryUnmarshalAudioContent c with
        | some v => (unmarshalContent rest).map (fun r => some v :: r)
        | none =>
          match tryUnmarshalEmbeddedResource c with
          | some v => .ok (some v :: rest.map (fun _ => none))
          | none => .error "unknown content type"

end CallToolResult

end protocol

/-- Result of one transport.Send call on the client transport. -/
inductive TransportSendResult
  | ok
  | sessionClosed
  | otherErr (e : GoError)
  deriving DecidableEq, Repr

/-- The observable trace of Client.sendMsgWithRequest: its returned error,
whether the transport accepted the original request message, and how many
times transport.Send was invoked with that message. -/
structure SendTrace where
  outcome : Except GoError Unit
  originalTransmitted : Bool
  sendAttempts : Nat
  deriving Repr

/-- Client.sendMsgWithRequest (client/send.go): one transport.Send of the
marshalled request; a non-SessionClosed error is returned, while
`ErrSessionClosed` triggers againInitialization (outcome passed in as
`reinitOutcome`) and, when that succeeds, the function returns nil without
re-sending the original message. -/
def Client.sendMsgWithRequest (sendResult : TransportSendResult)
    (reinitOutcome : Except GoError Unit) : SendTrace :=
  match sendResult with
  | .ok => ⟨.ok (), true, 1⟩
  | .otherErr e => ⟨.error e, false, 1⟩
  | .sessionClosed =>
    match reinitOutcome with
    | .ok _ => ⟨.ok (), false, 1⟩
    | .error e => ⟨.error e, false, 1⟩

/-- Outcome of Client.callServer. -/
inductive CallOutcome
  | notReady
  | sendFailed (e : GoError)
  | rpcError (code : Int) (message : String)
  | result (raw : String)
  | ctxCompleted
  | suspended
  deriving DecidableEq, Repr

/-- Client.callServer (client/handle.go): readiness check (except
`initialize` and `ping`), registration of a fresh capacity-1 reply slot,
send via sendMsgWithRequest, then a select on the reply slot and the
context. `slotDelivery` is the response delivered to the slot, if any;
`ctxDone` tells whether the context has completed; with neither, the call
stays suspended. -/
def Client.callServer (ready : Bool) (method : String)
    (sendResult : TransportSendResult) (reinitOutcome : Except GoError Unit)
    (slotDelivery : Option JSONRPCResponse) (ctxDone : Bool) : CallOutcome :=
  if !ready && (method != protocol.Initialize && method != protocol.Ping) then .notReady
  else
    match (Client.sendMsgWithRequest sendResult reinitOutcome).outcome with
    | .error e => .sendFailed e
    | .ok _ =>
      match slotDelivery with
      | some resp =>
        match resp.error with
        | some re => .rpcError re.code re.message
        | none => .result (resp.result.getD "")
      | none => if ctxDone then .ctxCompleted else .suspended

/-- The server dispatcher classifies by field presence alone: once the
session pre-check passes, the class of the outcome is notification for a
frame with no id, response for id without method, request for both. -/
lemma server_receive_classOf (server : Server) (sessionID : String) (f : Frame)
    (hc : (sessionID != "" && !(server.sessionManager.IsActiveSession sessionID)) = false) :
    (Server.receive server sessionID f).1.classOf =
      some (if !f.hasId then FrameClass.notification
            else if !f.hasMethod then FrameClass.response
            else FrameClass.request) := by
  unfold Server.receive
  rw [hc]
  simp only [Bool.false_eq_true, if_false]
  cases hId : f.hasId with
  | false =>
    simp only [Bool.not_false, if_true]
    cases hN : f.asNotify with
    | none => simp [RecvOutcome.classOf]
    | some notify =>
      cases hRN : Server.receiveNotify server sessionID notify <;>
        simp [hRN, RecvOutcome.classOf]
  | true =>
    simp only [Bool.not_true, Bool.false_eq_true, if_false]
    cases hM : f.hasMethod with
    | false =>
      simp only [Bool.not_false, if_true]
      cases hR : f.asResponse with
      | none => simp [RecvOutcome.classOf]
      | some resp =>
        rcases hRR : Server.receiveResponse server sessionID resp with ⟨eo, server2⟩
        cases eo <;> simp [hRR, RecvOutcome.classOf]
    | true =>
      simp only [Bool.not_true, Bool.false_eq_true, if_false]
      cases hQ : f.asRequest with
      | none => simp [RecvOutcome.classOf]
      | some req =>
        cases hV : req.IsValid with
        | false => simp [hV, RecvOutcome.classOf]
        | true =>
          simp only [hV, Bool.not_true, Bool.false_eq_true, if_false]
          split
          · cases hG : server.sessionManager.GetSession sessionID with
            | none => simp [RecvOutcome.classOf]
            | some s =>
              cases hRdy : s.ready <;> cases hSh : server.inShutdown <;>
                simp [hRdy, hSh, RecvOutcome.classOf]
          · cases hSh : server.inShutdown <;> simp [hSh, RecvOutcome.classOf]

/-- The client dispatcher classifies by field presence alone, identically. -/
lemma client_receive_classOf (client : Client) (f : Frame) :
    (Client.receive client f).classOf =
      some (if !f.hasId then FrameClass.notification
            else if !f.hasMethod then FrameClass.response
            else FrameClass.request) := by
  unfold Client.receive
  cases hId : f.hasId with
  | false =>
    simp only [Bool.not_false, if_true]
    cases hN : f.asNotify <;> simp [RecvOutcome.classOf]
  | true =>
    simp only [Bool.not_true, Bool.false_eq_true, if_false]
    cases hM : f.hasMethod with
    | false =>
      simp only [Bool.not_false, if_true]
      cases hR : f.asResponse <;> simp [RecvOutcome.classOf]
    | true =>
      simp only [Bool.not_true, Bool.false_eq_true, if_false]
      cases hQ : f.asRequest with
      | none => simp [RecvOutcome.classOf]
      | some req => cases hV : req.IsValid <;> simp [hV, RecvOutcome.classOf]

/-- C1: for every inbound frame, the dispatchers (Server.receive and
Client.receive) classify it as exactly one of request, response,
notification: no `id` field gives notification, an `id` field without a
`method` field gives response, and both fields give request; the three iff
characterisations make the classes mutually exclusive, so no frame is
handled as more than one. The server hypothesis states that the session
pre-check passes (empty session id or an active session). -/
theorem c1_frame_classification (server : Server) (client : Client)
    (sessionID : String) (f : Frame)
    (hpre : sessionID = "" ∨ server.sessionManager.IsActiveSession sessionID = true) :
    (((Server.receive server sessionID f).1.classOf = some FrameClass.notification ↔
        f.hasId = false) ∧
     ((Server.receive server sessionID f).1.classOf = some FrameClass.response ↔
        f.hasId = true ∧ f.hasMethod = false) ∧
     ((Server.receive server sessionID f).1.classOf = some FrameClass.request ↔
        f.hasId = true ∧ f.hasMethod = true)) ∧
    (((Client.receive client f).classOf = some FrameClass.notification ↔
        f.hasId = false) ∧
     ((Client.receive client f).classOf = some FrameClass.response ↔
        f.hasId = true ∧ f.hasMethod = false) ∧
     ((Client.receive client f).classOf = some FrameClass.request ↔
        f.hasId = true ∧ f.hasMethod = true)) := by
  have hc : (sessionID != "" && !(server.sessionManager.IsActiveSession sessionID)) = false := by
    rcases hpre with h | h
    · subst h; simp
    · simp [h]
  rw [server_receive_classOf server sessionID f hc, client_receive_classOf client f]
  cases hId : f.hasId <;> cases hM : f.hasMethod <;> simp

/-- Concrete frame used by witnesses: a notification frame. -/
def frameNotifyW : Frame :=
  ⟨false, true, some ⟨"2.0", "notifications/x", ""⟩, none, none⟩

/-- Concrete server with no sessions, used by witnesses. -/
def serverEmptyW : Server := ⟨⟨fun _ => none, fun _ => false, 0⟩, false⟩

/-- Concrete client with no pending calls, used by witnesses. -/
def clientEmptyW : Client := ⟨fun _ => none, true, 0⟩

/-- Witness for C1: the classification theorem applied at a concrete
notification frame with an empty session id. -/
theorem c1_frame_classification_witness :
    ((Server.receive serverEmptyW "" frameNotifyW).1.classOf =
        some FrameClass.notification ↔ frameNotifyW.hasId = false) ∧
    ((Client.receive clientEmptyW frameNotifyW).classOf =
        some FrameClass.notification ↔ frameNotifyW.hasId = false) :=
  ⟨(c1_frame_classification serverEmptyW clientEmptyW "" frameNotifyW (Or.inl rfl)).1.1,
   (c1_frame_classification serverEmptyW clientEmptyW "" frameNotifyW (Or.inl rfl)).2.1⟩

/-- C2: on the server, with a non-empty session id bound to an active
session that is not ready, a valid request whose method is neither
`initialize` nor `ping` is rejected with `SessionHasNotInitialized` (the
handler goroutine is not spawned), and a notification whose method is not
`notifications/initialized` is rejected the same way; once the session is
ready the same frames pass the readiness gate: the request is accepted
(spawned) unless the server is shutting down, and the notification reaches
method dispatch (where it is rejected only as an unsupported method, the
server handling no other notification). -/
theorem c2_readiness_gate (server : Server) (sessionID : String) (s : State)
    (f g : Frame) (req : JSONRPCRequest) (notify : JSONRPCNotification)
    (hsid : (sessionID == "") = false)
    (hact : server.sessionManager.activeSessions sessionID = some s)
    (hfId : f.hasId = true) (hfM : f.hasMethod = true) (hfU : f.asRequest = some req)
    (hval : req.IsValid = true)
    (hni : (req.method == protocol.Initialize) = false)
    (hnp : (req.method == protocol.Ping) = false)
    (hgId : g.hasId = false) (hgU : g.asNotify = some notify)
    (hnm : (notify.method == protocol.NotificationInitialized) = false) :
    (s.ready = false →
      (Server.receive server sessionID f).1 =
        RecvOutcome.rejected FrameClass.request GoError.sessionHasNotInitialized ∧
      (Server.receive server sessionID g).1 =
        RecvOutcome.rejected FrameClass.notification GoError.sessionHasNotInitialized) ∧
    (s.ready = true →
      (Server.receive server sessionID f).1 =
        (if server.inShutdown then
          RecvOutcome.rejected FrameClass.request GoError.serverAlreadyShutdown
         else RecvOutcome.requestAccepted req.method) ∧
      (Server.receive server sessionID g).1 =
        RecvOutcome.rejected FrameClass.notification GoError.methodNotSupport) := by
  have hc : (sessionID != "" && !(server.sessionManager.IsActiveSession sessionID)) = false := by
    simp [bne, hsid, Manager.IsActiveSession, hact]
  have hG : server.sessionManager.GetSession sessionID = some s := by
    simp [Manager.GetSession, hsid, hact]
  have hA : server.sessionManager.IsActiveSession sessionID = true := by
    simp [Manager.IsActiveSession, hact]
  constructor
  · intro hrdy
    constructor
    · simp [Server.receive, hA, hfId, hfM, hfU, hval, bne, hsid, hni, hnp, hG, hrdy]
    · simp [Server.receive, hA, hgId, hgU, Server.receiveNotify, bne, hsid, hG, hnm, hrdy]
  · intro hrdy
    constructor
    · cases hSh : server.inShutdown <;>
        simp [Server.receive, hA, hfId, hfM, hfU, hval, bne, hsid, hni, hnp, hG, hrdy, hSh]
    · simp [Server.receive, hA, hgId, hgU, Server.receiveNotify, bne, hsid, hG, hnm, hrdy]

/-- A fresh, not yet ready session state, used by witnesses. -/
def sessionNotReadyW : State := NewState 0

/-- A server holding the single not-ready session `s1`, used by witnesses. -/
def serverGateW : Server :=
  ⟨⟨fun id => if id = "s1" then some sessionNotReadyW else none, fun _ => false, 0⟩, false⟩

/-- A valid `tools/list` request frame, used by witnesses. -/
def frameReqW : Frame :=
  ⟨true, true, none, none, some ⟨"2.0", RequestID.num 1, "tools/list", ""⟩⟩

/-- A `notifications/cancelled` notification frame, used by witnesses. -/
def frameCancelW : Frame :=
  ⟨false, false, some ⟨"2.0", "notifications/cancelled", ""⟩, none, none⟩

/-- Witness for C2: on the concrete not-ready session, a `tools/list`
request and a `notifications/cancelled` notification are both rejected with
`SessionHasNotInitialized`. -/
theorem c2_readiness_gate_witness :
    (Server.receive serverGateW "s1" frameReqW).1 =
      RecvOutcome.rejected FrameClass.request GoError.sessionHasNotInitialized ∧
    (Server.receive serverGateW "s1" frameCancelW).1 =
      RecvOutcome.rejected FrameClass.notification GoError.sessionHasNotInitialized :=
  (c2_readiness_gate serverGateW "s1" sessionNotReadyW frameReqW frameCancelW
      ⟨"2.0", RequestID.num 1, "tools/list", ""⟩ ⟨"2.0", "notifications/cancelled", ""⟩
      rfl (by simp [serverGateW]) rfl rfl rfl rfl rfl rfl rfl rfl rfl).1 rfl

/-- C3: pending-call reply slots are single-shot on both peers. With a slot
registered (and still empty) under the stringified id shared by two
responses, the first delivery succeeds and fills the slot, and the second
delivery to the same id is rejected with `DuplicateResponseReceived`, leaving
the slot content and the whole dispatch state unchanged — for
Client.receiveResponse and Server.receiveResponse alike. -/
theorem c3_single_shot_reply_slot (client : Client) (server : Server)
    (sessionID : String) (s : State) (r1 r2 : JSONRPCResponse) (key : String)
    (hk1 : r1.id.sprint = key) (hk2 : r2.id.sprint = key)
    (hslotC : client.reqID2respChan key = some none)
    (hsid : (sessionID == "") = false)
    (hact : server.sessionManager.activeSessions sessionID = some s)
    (hslotS : s.reqID2respChan key = some none) :
    ((Client.receiveResponse client r1).1 = none ∧
     (Client.receiveResponse client r1).2.reqID2respChan key = some (some r1) ∧
     (Client.receiveResponse (Client.receiveResponse client r1).2 r2).1 =
       some GoError.duplicateResponseReceived ∧
     (Client.receiveResponse (Client.receiveResponse client r1).2 r2).2 =
       (Client.receiveResponse client r1).2) ∧
    ((Server.receiveResponse server sessionID r1).1 = none ∧
     (((Server.receiveResponse server sessionID r1).2.sessionManager.GetSession
         sessionID).map (fun s2 => s2.reqID2respChan key)) = some (some (some r1)) ∧
     (Server.receiveResponse (Server.receiveResponse server sessionID r1).2 sessionID r2).1 =
       some GoError.duplicateResponseReceived ∧
     (Server.receiveResponse (Server.receiveResponse server sessionID r1).2 sessionID r2).2 =
       (Server.receiveResponse server sessionID r1).2) := by
  constructor
  · refine ⟨?_, ?_, ?_, ?_⟩ <;>
      simp [Client.receiveResponse, hk1, hk2, hslotC]
  · refine ⟨?_, ?_, ?_, ?_⟩ <;>
      simp [Server.receiveResponse, Server.storeSession, Manager.GetSession,
        hsid, hact, hslotS, hk1, hk2]

/-- First response delivered to request id 7, used by witnesses. -/
def respOkW : JSONRPCResponse := ⟨"2.0", RequestID.num 7, some "first", none⟩

/-- Second (duplicate) response with the same id, used by witnesses. -/
def respDupW : JSONRPCResponse := ⟨"2.0", RequestID.num 7, some "second", none⟩

/-- A client with an empty reply slot registered under id 7. -/
def clientSlotW : Client := ⟨fun k => if k = "7" then some none else none, true, 7⟩

/-- A session state with an empty reply slot registered under id 7. -/
def sessionSlotW : State :=
  { NewState 0 with reqID2respChan := fun k => if k = "7" then some none else none }

/-- A server holding the single session `s1` with the slotted state. -/
def serverSlotW : Server :=
  ⟨⟨fun id => if id = "s1" then some sessionSlotW else none, fun _ => false, 0⟩, false⟩

/-- Witness for C3: at the concrete slots, the first delivery succeeds and
the duplicate is rejected, on both peers. -/
theorem c3_single_shot_reply_slot_witness :
    ((Client.receiveResponse clientSlotW respOkW).1 = none ∧
     (Client.receiveResponse (Client.receiveResponse clientSlotW respOkW).2 respDupW).1 =
       some GoError.duplicateResponseReceived) ∧
    ((Server.receiveResponse serverSlotW "s1" respOkW).1 = none ∧
     (Server.receiveResponse (Server.receiveResponse serverSlotW "s1" respOkW).2 "s1" respDupW).1 =
       some GoError.duplicateResponseReceived) := by
  have h := c3_single_shot_reply_slot clientSlotW serverSlotW "s1" sessionSlotW
    respOkW respDupW "7" rfl rfl (by simp [clientSlotW]) rfl
    (by simp [serverSlotW]) (by simp [sessionSlotW, NewState])
  exact ⟨⟨h.1.1, h.1.2.2.1⟩, ⟨h.2.1, h.2.2.2.1⟩⟩

/-- A single well-formed manager step preserves membership of the closed set
and absence from the active set: creation only happens with a fresh id,
closes only shrink the active set, and in-place session mutations never
store into the maps. -/
lemma closed_stays_closed_step (m : Manager) (op : MgrOp) (s : String)
    (h1 : m.IsActiveSession s = false) (h2 : m.IsClosedSession s = true)
    (hwf : m.wfOp op = true) :
    (m.applyOp op).IsActiveSession s = false ∧ (m.applyOp op).IsClosedSession s = true := by
  have h1n : m.activeSessions s = none := by
    cases hx : m.activeSessions s with
    | none => rfl
    | some v => rw [Manager.IsActiveSession, hx] at h1; simp at h1
  cases op with
  | create sid now =>
    rw [Manager.wfOp, Bool.and_eq_true] at hwf
    have hne : s ≠ sid := by
      intro h
      rw [← h] at hwf
      rw [Manager.IsClosedSession] at h2
      simp [Manager.IsClosedSession, h2] at hwf
    simp [Manager.applyOp, Manager.CreateSession, Manager.IsActiveSession,
      Manager.IsClosedSession, hne, h1n]
    exact h2
  | close sid =>
    cases hm : m.activeSessions sid with
    | none =>
      simp [Manager.applyOp, Manager.CloseSession, hm, Manager.IsActiveSession,
        Manager.IsClosedSession, h1n]
      exact h2
    | some st =>
      by_cases hse : s = sid
      · subst hse
        simp [Manager.applyOp, Manager.CloseSession, hm, Manager.IsActiveSession,
          Manager.IsClosedSession]
      · simp [Manager.applyOp, Manager.CloseSession, hm, Manager.IsActiveSession,
          Manager.IsClosedSession, hse, h1n]
        exact h2
  | closeAll =>
    simp [Manager.applyOp, Manager.CloseAllSessions, Manager.IsActiveSession,
      Manager.IsClosedSession]
    rw [Manager.IsClosedSession] at h2
    simp [h2]
  | inner sid op =>
    cases hm : m.activeSessions sid with
    | none =>
      simp [Manager.applyOp, hm, Manager.IsActiveSession, Manager.IsClosedSession, h1n]
      exact h2
    | some st =>
      have hne : s ≠ sid := by
        intro h; rw [← h] at hm; rw [hm] at h1n; exact Option.noConfusion h1n
      simp [Manager.applyOp, hm, Manager.IsActiveSession, Manager.IsClosedSession, hne, h1n]
      exact h2

/-- A well-formed step sequence preserves the closed/not-active invariant. -/
lemma closed_stays_closed_ops (ops : List MgrOp) (m : Manager) (s : String)
    (h1 : m.IsActiveSession s = false) (h2 : m.IsClosedSession s = true)
    (hwf : m.wfOps ops = true) :
    (m.applyOps ops).IsActiveSession s = false ∧
    (m.applyOps ops).IsClosedSession s = true := by
  induction ops generalizing m with
  | nil => exact ⟨h1, h2⟩
  | cons op rest ih =>
    rw [Manager.wfOps, Bool.and_eq_true] at hwf
    have hstep := closed_stays_closed_step m op s h1 h2 hwf.1
    exact ih (m.applyOp op) hstep.1 hstep.2 hwf.2

/-- C4: for an active session id, once CloseSession returns the id is no
longer active and is recorded closed, and no subsequent well-formed sequence
of session-manager operations (creations with fresh UUIDs, closes, and
per-session mutations) ever re-inserts it into the active set. -/
theorem c4_close_session_terminal (m : Manager) (s : String) (ops : List MgrOp)
    (hact : m.IsActiveSession s = true)
    (hwf : (m.CloseSession s).wfOps ops = true) :
    (m.CloseSession s).IsActiveSession s = false ∧
    (m.CloseSession s).IsClosedSession s = true ∧
    ((m.CloseSession s).applyOps ops).IsActiveSession s = false ∧
    ((m.CloseSession s).applyOps ops).IsClosedSession s = true := by
  obtain ⟨st, hst⟩ : ∃ st, m.activeSessions s = some st := by
    rw [Manager.IsActiveSession, Option.isSome_iff_exists] at hact
    exact hact
  have hpost1 : (m.CloseSession s).IsActiveSession s = false := by
    simp [Manager.CloseSession, hst, Manager.IsActiveSession]
  have hpost2 : (m.CloseSession s).IsClosedSession s = true := by
    simp [Manager.CloseSession, hst, Manager.IsClosedSession]
  have hops := closed_stays_closed_ops ops (m.CloseSession s) s hpost1 hpost2 hwf
  exact ⟨hpost1, hpost2, hops.1, hops.2⟩

/-- A manager holding the single fresh session `a`, used by witnesses. -/
def managerAW : Manager :=
  ⟨fun id => if id = "a" then some (NewState 0) else none, fun _ => false, 0⟩

/-- A concrete operation sequence run after closing `a`: create another
session, mutate it, close it, close all. -/
def opsAfterCloseW : List MgrOp :=
  [MgrOp.create "b" 1, MgrOp.inner "b" InnerOp.setReady, MgrOp.close "b", MgrOp.closeAll]

/-- Witness for C4: after closing `a`, running the concrete sequence leaves
`a` out of the active set and in the closed set. -/
theorem c4_close_session_terminal_witness :
    ((managerAW.CloseSession "a").applyOps opsAfterCloseW).IsActiveSession "a" = false ∧
    ((managerAW.CloseSession "a").applyOps opsAfterCloseW).IsClosedSession "a" = true := by
  have h := c4_close_session_terminal managerAW "a" opsAfterCloseW (by decide) (by decide)
  exact ⟨h.2.2.1, h.2.2.2⟩

/-- Draining an opened state whose send channel has been closed yields
exactly the buffered messages in FIFO order and then `ErrSendEOF`, for any
fuel exceeding the queue length. -/
lemma drainLoop_closed_chan (n : Nat) :
    ∀ s : State, s.queueOpened = true → s.sendChanClosed = true →
      s.sendQueue.length < n →
      s.drainLoop n = (s.sendQueue, some GoError.sendEOF) := by
  induction n with
  | zero => intro s _ _ hl; exact absurd hl (Nat.not_lt_zero _)
  | succ k ih =>
    intro s ho hc hl
    cases hq : s.sendQueue with
    | nil =>
      simp [State.drainLoop, State.dequeueMessage, ho, hc, hq]
    | cons msg rest =>
      have hstep : s.dequeueMessage false = (.msg msg, { s with sendQueue := rest }) := by
        simp [State.dequeueMessage, ho, hq]
      have hrec := ih { s with sendQueue := rest } ho hc
        (by rw [hq] at hl; simpa using Nat.lt_of_succ_lt_succ hl)
      simp [State.drainLoop, hstep, hrec, hq]

/-- C5: once a session state is closed (State.Close on a state whose send
queue was opened), enqueueMessage rejects every message with the
"session already closed" error and leaves the state unchanged, while
dequeueMessage still delivers each message that remained in the queue at
close time, in FIFO order, and returns the distinguished `ErrSendEOF` once
the queue is drained. -/
theorem c5_closed_session_queue (st : State) (msg : String) (n : Nat)
    (hopen : st.queueOpened = true) (hn : st.sendQueue.length < n) :
    ((st.Close).enqueueMessage false msg).1 = EnqResult.err GoError.sessionAlreadyClosed ∧
    ((st.Close).enqueueMessage false msg).2 = st.Close ∧
    (st.Close).drainLoop n = (st.sendQueue, some GoError.sendEOF) := by
  refine ⟨?_, ?_, ?_⟩
  · simp [State.Close, State.enqueueMessage]
  · simp [State.Close, State.enqueueMessage]
  · have h := drainLoop_closed_chan n st.Close
      (by simp [State.Close, hopen]) (by simp [State.Close, hopen])
      (by simpa [State.Close] using hn)
    simpa [State.Close] using h

/-- An opened session state with two queued messages, used by witnesses. -/
def stateQueuedW : State :=
  { NewState 0 with queueOpened := true, sendQueue := ["m1", "m2"] }

/-- Witness for C5: closing the concrete two-message state, the enqueue is
rejected and the drain yields both messages then EOF. -/
theorem c5_closed_session_queue_witness :
    ((stateQueuedW.Close).enqueueMessage false "m3").1 =
      EnqResult.err GoError.sessionAlreadyClosed ∧
    (stateQueuedW.Close).drainLoop 3 = (["m1", "m2"], some GoError.sendEOF) := by
  have h := c5_closed_session_queue stateQueuedW "m3" 3 (by decide) (by decide)
  exact ⟨h.1, h.2.2⟩

/-- Counterexample for C6 as stated: with a negative idle horizon
(maxIdleTime of minus one nanosecond) and a session that just became active
(idle time zero) whose detection succeeds on the first attempt, the sweep
closes the session — the source tests `maxIdleTime != 0`, not
`maxIdleTime > 0` — while the claimed condition (maxIdleTime positive and
exceeded, or three consecutive detection failures) does not hold. -/
theorem c6_heartbeat_counterexample :
    heartbeatVisitCloses (-1) 0 true true true = true ∧
    heartbeatClaimCloses (-1) 0 true true true = false := by
  constructor <;> decide

/-- C6 amended: a tick of the heartbeat sweep closes a visited session if
and only if the idle horizon is nonzero (rather than positive) and the time
since lastActiveAt exceeds it, or all three detection attempts of that tick
fail; a session passing the idle test whose detection succeeds within three
attempts is left active. -/
theorem c6_heartbeat_closes_iff (maxIdleTime idle : Int) (d0 d1 d2 : Bool) :
    heartbeatVisitCloses maxIdleTime idle d0 d1 d2 = true ↔
      ((maxIdleTime ≠ 0 ∧ idle > maxIdleTime) ∨
       (d0 = false ∧ d1 = false ∧ d2 = false)) := by
  unfold heartbeatVisitCloses
  split_ifs with h1 h2 h3 h4 <;> simp_all

/-- C7: for every request dispatched to a handler, Server.receiveRequest
produces exactly one JSON-RPC response and it carries the request id: a
handler returning (result, nil) yields the success envelope with that id and
result; a handler error yields the error envelope whose code is
MethodNotFound for ErrMethodNotSupport, InvalidRequest for ErrRequestInvalid,
ParseError for ErrJSONUnmarshal and InternalError for anything else; an
unregistered method falls to the default MethodNotFound; and exactly one of
the result and error members is present. -/
theorem c7_request_response_mapping
    (handlers : String → Option (Except HandlerErrKind String))
    (request : JSONRPCRequest) :
    (Server.receiveRequest handlers request).id = request.id ∧
    (Server.receiveRequest handlers request).jsonrpc = "2.0" ∧
    (∀ result, handlers request.method = some (Except.ok result) →
      Server.receiveRequest handlers request =
        protocol.NewJSONRPCSuccessResponse request.id result) ∧
    (∀ e, handlers request.method = some (Except.error e) →
      (Server.receiveRequest handlers request).result = none ∧
      ((Server.receiveRequest handlers request).error.map ResponseErr.code) =
        some (match e with
          | HandlerErrKind.methodNotSupport => protocol.MethodNotFound
          | HandlerErrKind.requestInvalid => protocol.InvalidRequest
          | HandlerErrKind.jsonUnmarshal => protocol.ParseError
          | HandlerErrKind.other => protocol.InternalError)) ∧
    (handlers request.method = none →
      ((Server.receiveRequest handlers request).error.map ResponseErr.code) =
        some protocol.MethodNotFound) ∧
    ((Server.receiveRequest handlers request).result.isSome ↔
      (Server.receiveRequest handlers request).error = none) := by
  cases h : handlers request.method with
  | none =>
    simp [Server.receiveRequest, h, protocol.NewJSONRPCErrorResponse, handlerErrCode]
  | some res =>
    cases res with
    | ok r =>
      simp [Server.receiveRequest, h, protocol.NewJSONRPCSuccessResponse]
    | error e =>
      cases e <;>
        simp [Server.receiveRequest, h, protocol.NewJSONRPCErrorResponse, handlerErrCode]

/-- A dispatch table with a single ping handler, used by witnesses. -/
def handlersPingW : String → Option (Except HandlerErrKind String) :=
  fun m => if m = "ping" then some (Except.ok "pong") else none

/-- A concrete ping request, used by witnesses. -/
def requestPingW : JSONRPCRequest := ⟨"2.0", RequestID.num 3, "ping", ""⟩

/-- Witness for C7: the concrete ping request produces the success envelope
with its own id. -/
theorem c7_request_response_mapping_witness :
    Server.receiveRequest handlersPingW requestPingW =
      protocol.NewJSONRPCSuccessResponse (RequestID.num 3) "pong" :=
  (c7_request_response_mapping handlersPingW requestPingW).2.2.1 "pong"
    (by simp [handlersPingW, requestPingW])

/-- A manager with no active and no closed sessions, used by C8. -/
def managerEmptyW : Manager := ⟨fun _ => none, fun _ => false, 0⟩

/-- Counterexample for C8 as stated: a DELETE whose Mcp-Session-Id names an
id that is neither active nor closed answers HTTP 200, not 400 —
handleDelete only rejects an empty header, and CloseSession on an unknown id
is a silent no-op. -/
theorem c8_delete_unknown_counterexample :
    managerEmptyW.IsActiveSession "deadbeef" = false ∧
    managerEmptyW.IsClosedSession "deadbeef" = false ∧
    (handleDelete managerEmptyW "deadbeef").1 = 200 ∧
    (200 : Nat) ≠ 400 := by
  refine ⟨rfl, rfl, rfl, by decide⟩

/-- C8 amended: a DELETE on the streamable-HTTP endpoint responds 400 only
when the Mcp-Session-Id header is missing (empty); any non-empty session id
— known or unknown — is answered with 200 after a CloseSession that is a
no-op for unknown ids. -/
theorem c8_delete_status (m : Manager) (sessionID : String) :
    (sessionID ≠ "" → (handleDelete m sessionID).1 = 200) ∧
    (sessionID = "" → (handleDelete m sessionID).1 = 400) := by
  constructor
  · intro h; simp [handleDelete, h]
  · intro h; subst h; simp [handleDelete]

/-- Witness for C8: a concrete non-empty unknown id gets 200 and the empty
id gets 400. -/
theorem c8_delete_status_witness :
    (handleDelete managerEmptyW "s9").1 = 200 ∧
    (handleDelete managerEmptyW "").1 = 400 :=
  ⟨(c8_delete_status managerEmptyW "s9").1 (by decide),
   (c8_delete_status managerEmptyW "").2 rfl⟩

/-- C9 (code bug): the embedded-resource branch of the content loop of
CallToolResult.UnmarshalJSON returns nil for the whole decode instead of
continuing to the next element (its three sibling branches continue): a
content array whose non-final element is an embedded resource decodes
"successfully" while every later element is skipped and left nil — even an
element matching none of the four variants — contradicting the claim that
every element is decoded and that the decode fails iff some element matches
no variant. A lone unmatched element still fails, confirming the intended
shape of the loop. -/
theorem c9_embedded_resource_early_return :
    protocol.CallToolResult.unmarshalContent
        [protocol.RawContent.embeddedResource "res", protocol.RawContent.text "hello"] =
      Except.ok [some (protocol.Content.embeddedResource "res"), none] ∧
    protocol.CallToolResult.unmarshalContent
        [protocol.RawContent.embeddedResource "res", protocol.RawContent.unknown "junk"] =
      Except.ok [some (protocol.Content.embeddedResource "res"), none] ∧
    protocol.CallToolResult.unmarshalContent [protocol.RawContent.unknown "junk"] =
      Except.error "unknown content type" :=
  ⟨rfl, rfl, rfl⟩

/-- C10: when the client transport reports ErrSessionClosed for a request
send and the triggered re-initialization succeeds, sendMsgWithRequest
returns nil without the original request having been transmitted and without
re-sending it (the single transport.Send attempt is the failed one); the
pending reply slot registered by callServer therefore belongs to a request
the server never saw, and the select over the empty slot and the context
releases the call only when the context completes. -/
theorem c10_session_closed_reinit_swallows_request (method : String) (ctxDone : Bool) :
    (Client.sendMsgWithRequest TransportSendResult.sessionClosed (Except.ok ())).outcome =
      Except.ok () ∧
    (Client.sendMsgWithRequest TransportSendResult.sessionClosed
        (Except.ok ())).originalTransmitted = false ∧
    (Client.sendMsgWithRequest TransportSendResult.sessionClosed (Except.ok ())).sendAttempts =
      1 ∧
    Client.callServer true method TransportSendResult.sessionClosed (Except.ok ()) none ctxDone =
      (if ctxDone then CallOutcome.ctxCompleted else CallOutcome.suspended) := by
  refine ⟨rfl, rfl, rfl, ?_⟩
  cases ctxDone <;> rfl

end GoMcp
